import Mathlib

/-!
Verification of the Review Intelligence Pipeline
(fintech-reviews-analysis repository).

This file gives a shallow embedding, in Lean 4, of the decision logic of
the pipeline core:

* `src/analysis/sentiment.py` — `SentimentAnalyzer.score_texts` /
  `score_dataframe` (sentiment scoring with batching);
* `src/analysis/themes.py` — `_clean_text`, `ThemeExtractor`
  (`annotate_reviews_with_themes`, `summarize_themes`);
* `src/insights/analyzer.py` — `InsightsAnalyzer`
  (`extract_drivers_pain_points`, `analyze_all_banks`,
  `generate_recommendations`);
* `src/analysis/pipeline.py` — `SentimentThemePipeline.run`.

Modelling conventions:

* Python floats are modelled as rationals (`ℚ`); all the decision logic
  consists of comparisons, subtraction and averaging, which are exact here.
* The external HuggingFace classifier (an external capability per the
  design) is a parameter: a pure per-text function returning the list of
  label/confidence pairs that `pipeline("text-classification",
  return_all_scores=True)` yields per item, or — for the failure-mode
  model — a per-batch function that can fail (`Except`).
* pandas dataframes are modelled either as `List Review` (records, when
  the column set is fixed) or as `List PdRow` (association lists from
  column names to cell values, when column-frame effects matter).
* Batch sizes are `ℕ`; Python `range(0, n, step)` requires a positive
  step, so the theorems hypothesise a nonzero batch size.
-/

namespace FintechReviews

set_option maxRecDepth 4096

/-! ### Generic text helpers (Python string semantics) -/

/-- Python whitespace characters (the ASCII set recognised by
`str.strip` and the regex class used in `themes._clean_text`). -/
def pyIsSpace (c : Char) : Bool :=
  c == ' ' || c == '\t' || c == '\n' || c == '\r' || c == '\x0b' || c == '\x0c'

/-- Whether `needle` is a leading segment of `haystack`
(character-by-character comparison). -/
def leadsList : List Char → List Char → Bool
  | [], _ => true
  | _ :: _, [] => false
  | a :: as, b :: bs => a == b && leadsList as bs

/-- Python substring containment `needle in haystack` on strings. -/
def containsSub (needle : List Char) : List Char → Bool
  | [] => leadsList needle []
  | c :: rest => leadsList needle (c :: rest) || containsSub needle rest

/-- Lexicographic (code-point) non-strict order on character lists;
this is exactly the order Python string comparison and `sorted` use. -/
def lexLe : List Char → List Char → Bool
  | [], _ => true
  | _ :: _, [] => false
  | a :: as, b :: bs =>
    if a.toNat < b.toNat then true
    else if b.toNat < a.toNat then false
    else lexLe as bs

/-- Lexicographic (code-point) strict order on character lists. -/
def lexLt : List Char → List Char → Bool
  | [], [] => false
  | [], _ :: _ => true
  | _ :: _, [] => false
  | a :: as, b :: bs =>
    if a.toNat < b.toNat then true
    else if b.toNat < a.toNat then false
    else lexLt as bs

/-- First-occurrence deduplication (the order `dict`/`pandas.unique`
preserve), with an accumulator of already seen elements. -/
def uniqueFirstAux {α : Type} [DecidableEq α] (seen : List α) : List α → List α
  | [] => []
  | b :: rest =>
    if b ∈ seen then uniqueFirstAux seen rest
    else b :: uniqueFirstAux (b :: seen) rest

/-- First-occurrence deduplication. -/
def uniqueFirst {α : Type} [DecidableEq α] (l : List α) : List α :=
  uniqueFirstAux [] l

/-- Mean of a list of rationals, `sum / len` (`pandas.Series.mean`). -/
def qmean (l : List ℚ) : ℚ := l.sum / (l.length : ℚ)

/-- Round-half-to-even of a rational to an integer, the rounding mode of
the Python builtin `round`: the floor when the fractional part is below
one half, the ceiling when above, the even neighbour on an exact half. -/
def roundHalfEven (q : ℚ) : ℤ :=
  let f := ⌊q⌋
  let r := q - (f : ℚ)
  if r < 1/2 then f
  else if 1/2 < r then f + 1
  else if 2 ∣ f then f else f + 1

/-- Python `round(x, 2)`: round to two decimal places, half to even. -/
def pyRound2 (x : ℚ) : ℚ := (roundHalfEven (x * 100) : ℚ) / 100

/-! ### Sentiment scorer (`src/analysis/sentiment.py`) -/

/-- Embeds `sentiment._normalize_label`: uppercase the model label and collapse
anything containing `POS` / `NEG` to the canonical class names. -/
def normalizeLabel (label : String) : String :=
  let up := label.toUpper
  if containsSub "POS".data up.data then "POSITIVE"
  else if containsSub "NEG".data up.data then "NEGATIVE"
  else up

/-- The `SentimentResult` dataclass of `sentiment.py`. -/
structure SentimentResult where
  text : String
  sentiment_label : String
  sentiment_score : ℚ
  positive_score : ℚ
  negative_score : ℚ
deriving DecidableEq, Repr

/-- Embeds `next((s.score for s in scores if _normalize_label(s.label) == target), 0.0)`:
the confidence of the first score entry whose normalized label is
`target`, defaulting to `0`. -/
def extractScore (scores : List (String × ℚ)) (target : String) : ℚ :=
  match scores.find? (fun s => normalizeLabel s.1 == target) with
  | some s => s.2
  | none => 0

/-- The per-item result construction of `score_texts` (lines 64-83 of
`sentiment.py`): signed score is positive minus negative confidence, and
the label is decided against the neutral threshold `t`. -/
def mkSentimentResult (t : ℚ) (text : String) (scores : List (String × ℚ)) :
    SentimentResult :=
  let pos := extractScore scores "POSITIVE"
  let neg := extractScore scores "NEGATIVE"
  let signed := pos - neg
  { text := text
    sentiment_label :=
      if signed > t then "POSITIVE"
      else if signed < -t then "NEGATIVE"
      else "NEUTRAL"
    sentiment_score := signed
    positive_score := pos
    negative_score := neg }

/-- Line 57 of `sentiment.py`:
`text if isinstance(text, str) and text.strip() else ""`.
A whitespace-only (or empty) text is replaced by the empty string; any
other text is passed through unchanged. -/
def cleanSentimentText (text : String) : String :=
  if text.data.all pyIsSpace then "" else text

/-- Fuel-indexed batching helper: `take`/`drop` slices of size `b`. -/
def chunksAux {α : Type} (b : ℕ) : ℕ → List α → List (List α)
  | 0, _ => []
  | _, [] => []
  | fuel + 1, l => l.take b :: chunksAux b fuel (l.drop b)

/-- The batch slices `cleaned_texts[start : start + batch_size]` produced
by the loop `for start in range(0, len(cleaned_texts), batch_size)`
(lines 59-61 of `sentiment.py`). The list length is enough fuel because
each step with a nonzero batch size consumes at least one element. -/
def chunks {α : Type} (b : ℕ) (l : List α) : List (List α) :=
  chunksAux b l.length l

/-- The batches handed to the external classifier by `score_texts`; used
to express which texts the model is invoked on. -/
def sentimentClassifierCalls (b : ℕ) (texts : List String) : List (List String) :=
  chunks b (texts.map cleanSentimentText)

/-- Embeds `SentimentAnalyzer.score_texts` (lines 56-84 of `sentiment.py`).
`f` is the external classifier applied per item of each batch (the
capability interface of the design: per-string label/confidence pairs);
`b` is `batch_size`, `t` is `neutral_threshold`. -/
def scoreTexts (f : String → List (String × ℚ)) (b : ℕ) (t : ℚ)
    (texts : List String) : List SentimentResult :=
  let cleaned := texts.map cleanSentimentText
  let outputs := (chunks b cleaned).flatMap (fun chunk => chunk.map f)
  List.zipWith (mkSentimentResult t) cleaned outputs

/-! ### Basic lemmas about batching -/

theorem chunksAux_flatMap_map {α β : Type} (f : α → β) (b : ℕ) (hb : b ≠ 0) :
    ∀ (fuel : ℕ) (l : List α), l.length ≤ fuel →
      (chunksAux b fuel l).flatMap (fun c => c.map f) = l.map f := by
  intro fuel
  induction fuel with
  | zero =>
    intro l hl
    have hnil : l = [] := List.length_eq_zero.mp (Nat.le_zero.mp hl)
    subst hnil
    simp [chunksAux]
  | succ n ih =>
    intro l hl
    cases l with
    | nil => simp [chunksAux]
    | cons a as =>
      have hdrop : ((a :: as).drop b).length ≤ n := by
        have hlen : (a :: as).length ≤ n + 1 := hl
        have hd : ((a :: as).drop b).length = (a :: as).length - b := by
          simp [List.length_drop]
        have hb1 : 1 ≤ b := Nat.one_le_iff_ne_zero.mpr hb
        omega
      simp only [chunksAux, List.flatMap_cons]
      rw [ih _ hdrop]
      rw [← List.map_append, List.take_append_drop]

theorem chunks_flatMap_map {α β : Type} (f : α → β) (b : ℕ) (hb : b ≠ 0)
    (l : List α) :
    (chunks b l).flatMap (fun c => c.map f) = l.map f :=
  chunksAux_flatMap_map f b hb l.length l le_rfl

theorem scoreTexts_eq_map (f : String → List (String × ℚ)) (b : ℕ) (t : ℚ)
    (texts : List String) (hb : b ≠ 0) :
    scoreTexts f b t texts =
      texts.map (fun x =>
        mkSentimentResult t (cleanSentimentText x) (f (cleanSentimentText x))) := by
  simp only [scoreTexts]
  rw [chunks_flatMap_map f b hb]
  rw [List.zipWith_map_right, List.zipWith_same, List.map_map]
  rfl

theorem scoreTexts_length (f : String → List (String × ℚ)) (b : ℕ) (t : ℚ)
    (texts : List String) (hb : b ≠ 0) :
    (scoreTexts f b t texts).length = texts.length := by
  rw [scoreTexts_eq_map f b t texts hb, List.length_map]

theorem chunks_flatten {α : Type} (b : ℕ) (hb : b ≠ 0) (l : List α) :
    (chunks b l).flatten = l := by
  have h := chunks_flatMap_map (fun a : α => a) b hb l
  simp only [List.map_id'] at h
  rw [← List.flatMap_id (chunks b l)]
  exact h

/-- The label/score facts of one constructed result. -/
theorem mkSentimentResult_props (t : ℚ) (text : String)
    (scores : List (String × ℚ)) (ht : 0 ≤ t) :
    (mkSentimentResult t text scores).sentiment_score =
        (mkSentimentResult t text scores).positive_score -
          (mkSentimentResult t text scores).negative_score
    ∧ ((mkSentimentResult t text scores).sentiment_score > t ↔
        (mkSentimentResult t text scores).sentiment_label = "POSITIVE")
    ∧ ((mkSentimentResult t text scores).sentiment_score < -t ↔
        (mkSentimentResult t text scores).sentiment_label = "NEGATIVE")
    ∧ (¬ (mkSentimentResult t text scores).sentiment_score > t →
        ¬ (mkSentimentResult t text scores).sentiment_score < -t →
        (mkSentimentResult t text scores).sentiment_label = "NEUTRAL") := by
  have hps : (mkSentimentResult t text scores).positive_score =
      extractScore scores "POSITIVE" := rfl
  have hns : (mkSentimentResult t text scores).negative_score =
      extractScore scores "NEGATIVE" := rfl
  have hss : (mkSentimentResult t text scores).sentiment_score =
      extractScore scores "POSITIVE" - extractScore scores "NEGATIVE" := rfl
  have hlab : (mkSentimentResult t text scores).sentiment_label =
      (if extractScore scores "POSITIVE" - extractScore scores "NEGATIVE" > t
        then "POSITIVE"
        else if extractScore scores "POSITIVE" - extractScore scores "NEGATIVE"
            < -t
          then "NEGATIVE" else "NEUTRAL") := rfl
  rw [hps, hns, hss, hlab]
  set p := extractScore scores "POSITIVE" with hp
  set n := extractScore scores "NEGATIVE" with hn
  by_cases h1 : p - n > t
  · have h2 : ¬ p - n < -t := by
      intro hcon
      have hlt : -t ≤ t := by linarith
      linarith
    rw [if_pos h1]
    refine ⟨rfl, ⟨fun _ => rfl, fun _ => h1⟩, ?_, fun hc _ => absurd h1 hc⟩
    constructor
    · intro hcon
      exact absurd hcon h2
    · intro hcon
      exact absurd hcon (by decide)
  · by_cases h2 : p - n < -t
    · rw [if_neg h1, if_pos h2]
      refine ⟨rfl, ?_, ⟨fun _ => rfl, fun _ => h2⟩, fun _ hc => absurd h2 hc⟩
      constructor
      · intro hcon
        exact absurd hcon h1
      · intro hcon
        exact absurd hcon (by decide)
    · rw [if_neg h1, if_neg h2]
      refine ⟨rfl, ?_, ?_, fun _ _ => rfl⟩
      · constructor
        · intro hcon
          exact absurd hcon h1
        · intro hcon
          exact absurd hcon (by decide)
      · constructor
        · intro hcon
          exact absurd hcon h2
        · intro hcon
          exact absurd hcon (by decide)

/-! ### Claims C1, C2, C5 (sentiment scorer) -/

/-- A concrete classifier stub (an instance of the external classification
capability) used to instantiate witnesses and counterexamples. It returns
a decidedly positive confidence pair for every input, including the empty
string. -/
def demoClassifier : String → List (String × ℚ) :=
  fun _ => [("POSITIVE", 9/10), ("NEGATIVE", 1/10)]

/-- Claim C1, counterexample. The claim states that an empty or
whitespace-only text is never forwarded to the classifier and always gets
the fixed neutral result. In `score_texts` (sentiment.py lines 56-66) the
whitespace-only text is merely replaced by the empty string, which is then
included in a batch handed to the classifier; with a classifier that rates
the empty string positively, the produced result is labelled POSITIVE with
a nonzero score — not the deterministic neutral quadruple — and the empty
string does occur among the classifier calls. -/
theorem sentiment_empty_text_counterexample :
    (" ".data.all pyIsSpace = true)
    ∧ "" ∈ (sentimentClassifierCalls 32 [" "]).flatten
    ∧ (scoreTexts demoClassifier 32 (1/10) [" "]).map
        (fun r => (r.sentiment_label, r.sentiment_score, r.positive_score,
          r.negative_score))
      = [("POSITIVE", 4/5, 9/10, 1/10)]
    ∧ ¬ ((scoreTexts demoClassifier 32 (1/10) [" "]).map
        (fun r => (r.sentiment_label, r.sentiment_score, r.positive_score,
          r.negative_score))
      = [("NEUTRAL", 0, 0, 0)]) := by
  refine ⟨by decide, by decide, ?_, ?_⟩
  · with_unfolding_all decide
  · with_unfolding_all decide

/-- Claim C1 as amended: an empty or whitespace-only input text is
replaced by the empty string, which IS forwarded to the underlying
classifier inside some batch, and the result for that item is computed
from the confidences the classifier returns for the empty string by the
same scoring rule as for any other text (it is not a fixed neutral
quadruple). -/
theorem sentiment_empty_text_forwarded (f : String → List (String × ℚ))
    (b : ℕ) (t : ℚ) (texts : List String) (i : ℕ) (hb : b ≠ 0)
    (hi : i < texts.length)
    (hw : (texts.get ⟨i, hi⟩).data.all pyIsSpace = true) :
    "" ∈ (sentimentClassifierCalls b texts).flatten
    ∧ (scoreTexts f b t texts).get
        ⟨i, by rw [scoreTexts_length f b t texts hb]; exact hi⟩
      = mkSentimentResult t "" (f "") := by
  have hclean : cleanSentimentText (texts.get ⟨i, hi⟩) = "" := by
    simp only [cleanSentimentText, hw]
    rfl
  constructor
  · rw [sentimentClassifierCalls, chunks_flatten b hb]
    rw [← hclean]
    exact List.mem_map_of_mem cleanSentimentText (texts.get_mem i hi)
  · have heq := scoreTexts_eq_map f b t texts hb
    have hget := List.get_of_eq heq
      ⟨i, by rw [scoreTexts_length f b t texts hb]; exact hi⟩
    rw [hget]
    simp only [List.get_eq_getElem, List.getElem_map]
    rw [show texts[i] = texts.get ⟨i, hi⟩ from rfl, hclean]

/-- Claim C1, witness for the amended statement, at batch size 32,
threshold 1/10, input a single whitespace-only text. -/
theorem sentiment_empty_text_forwarded_witness :
    (32 ≠ 0) ∧ (0 < 1) ∧ ((" ".data.all pyIsSpace) = true)
    ∧ ("" ∈ (sentimentClassifierCalls 32 [" "]).flatten
        ∧ (scoreTexts demoClassifier 32 (1/10) [" "]).get
            ⟨0, by rw [scoreTexts_length demoClassifier 32 (1/10) [" "] (by decide)]; decide⟩
          = mkSentimentResult (1/10) "" (demoClassifier "")) := by
  refine ⟨by decide, by decide, by decide, ?_⟩
  exact sentiment_empty_text_forwarded demoClassifier 32 (1/10) [" "] 0
    (by decide) (by decide) (by decide)

/-- Claim C2 (confirmed): every result of `score_texts` has
`sentiment_score = positive_score - negative_score`, and with a
nonnegative neutral half-width `t`, the score exceeds `t` exactly when the
label is POSITIVE, is below `-t` exactly when the label is NEGATIVE, and
otherwise the label is NEUTRAL. -/
theorem sentiment_label_score_consistency (f : String → List (String × ℚ))
    (b : ℕ) (t : ℚ) (texts : List String) (hb : b ≠ 0) (ht : 0 ≤ t) :
    ∀ r ∈ scoreTexts f b t texts,
      r.sentiment_score = r.positive_score - r.negative_score
      ∧ (r.sentiment_score > t ↔ r.sentiment_label = "POSITIVE")
      ∧ (r.sentiment_score < -t ↔ r.sentiment_label = "NEGATIVE")
      ∧ (¬ r.sentiment_score > t → ¬ r.sentiment_score < -t →
          r.sentiment_label = "NEUTRAL") := by
  intro r hr
  rw [scoreTexts_eq_map f b t texts hb] at hr
  rcases List.mem_map.mp hr with ⟨x, _, rfl⟩
  exact mkSentimentResult_props t (cleanSentimentText x)
    (f (cleanSentimentText x)) ht

/-- Claim C2, witness at batch size 32 and the default threshold 1/10. -/
theorem sentiment_label_score_consistency_witness :
    (32 ≠ 0) ∧ ((0:ℚ) ≤ 1/10)
    ∧ (∀ r ∈ scoreTexts demoClassifier 32 (1/10) ["good app"],
        r.sentiment_score = r.positive_score - r.negative_score
        ∧ (r.sentiment_score > 1/10 ↔ r.sentiment_label = "POSITIVE")
        ∧ (r.sentiment_score < -(1/10) ↔ r.sentiment_label = "NEGATIVE")
        ∧ (¬ r.sentiment_score > 1/10 → ¬ r.sentiment_score < -(1/10) →
            r.sentiment_label = "NEUTRAL")) := by
  refine ⟨by decide, by norm_num, ?_⟩
  have h := sentiment_label_score_consistency demoClassifier 32 (1/10)
    ["good app"] (by decide) (by norm_num)
  intro r hr
  have hres := h r hr
  refine ⟨hres.1, hres.2.1, ?_, ?_⟩
  · have := hres.2.2.1
    simpa using this
  · have := hres.2.2.2
    simpa using this

/-- Claim C5 (confirmed): batching is purely an implementation detail —
for any two nonzero batch sizes, `score_texts` produces identical
per-item results, one result per input text in input order. -/
theorem sentiment_batch_invariance (f : String → List (String × ℚ))
    (t : ℚ) (texts : List String) (b1 b2 : ℕ) (hb1 : b1 ≠ 0)
    (hb2 : b2 ≠ 0) :
    scoreTexts f b1 t texts = scoreTexts f b2 t texts
    ∧ (scoreTexts f b1 t texts).length = texts.length
    ∧ scoreTexts f b1 t texts =
        texts.map (fun x =>
          mkSentimentResult t (cleanSentimentText x)
            (f (cleanSentimentText x))) := by
  refine ⟨?_, scoreTexts_length f b1 t texts hb1,
    scoreTexts_eq_map f b1 t texts hb1⟩
  rw [scoreTexts_eq_map f b1 t texts hb1, scoreTexts_eq_map f b2 t texts hb2]

/-- Claim C5, witness: batch sizes 1 and 8 on a concrete three-text
input. -/
theorem sentiment_batch_invariance_witness :
    (1 ≠ 0) ∧ (8 ≠ 0)
    ∧ (scoreTexts demoClassifier 1 (1/10) ["a", "b", "c"] =
          scoreTexts demoClassifier 8 (1/10) ["a", "b", "c"]
        ∧ (scoreTexts demoClassifier 1 (1/10) ["a", "b", "c"]).length = 3
        ∧ scoreTexts demoClassifier 1 (1/10) ["a", "b", "c"] =
            (["a", "b", "c"] : List String).map (fun x =>
              mkSentimentResult (1/10) (cleanSentimentText x)
                (demoClassifier (cleanSentimentText x)))) := by
  refine ⟨by decide, by decide, ?_⟩
  exact sentiment_batch_invariance demoClassifier (1/10) ["a", "b", "c"]
    1 8 (by decide) (by decide)

/-! ### Theme tagger (`src/analysis/themes.py`) -/

/-- ASCII lowercasing of one character (`str.lower` on the ASCII range,
which is all the catalog needs). -/
def pyLowerChar (c : Char) : Char :=
  if 'A' ≤ c ∧ c ≤ 'Z' then Char.ofNat (c.toNat + 32) else c

/-- Characters kept by the substitution `re.sub(r"[^a-z0-9\s]", " ", text)`
in `themes._clean_text`: lowercase letters, digits and whitespace. -/
def isCleanKeep (c : Char) : Bool :=
  (decide ('a' ≤ c) && decide (c ≤ 'z'))
    || (decide ('0' ≤ c) && decide (c ≤ '9'))
    || pyIsSpace c

/-- Maximal whitespace-free words of a character list, in order; empty
pieces produced by consecutive separators are dropped. Used to model
`re.sub(r"\s+", " ", text).strip()` (collapse whitespace runs to single
spaces and trim) by re-joining the words with single spaces. -/
def wordsOf (l : List Char) : List (List Char) :=
  (l.foldr
    (fun c acc =>
      if pyIsSpace c then [] :: acc
      else
        match acc with
        | [] => [[c]]
        | w :: ws => (c :: w) :: ws)
    ([] : List (List Char))).filter (fun w => !w.isEmpty)

/-- Embeds `themes._clean_text` with `lemmatize=False` (the setting used by
`annotate_reviews_with_themes`): lowercase, replace every character
outside `[a-z0-9\s]` by a space, collapse whitespace and strip. -/
def cleanText (s : String) : String :=
  let lowered := s.data.map pyLowerChar
  let replaced := lowered.map (fun c => if isCleanKeep c then c else ' ')
  String.mk (List.intercalate [' '] (wordsOf replaced))

/-- Transcribes `DEFAULT_THEME_KEYWORDS` of `themes.py`, in source order. -/
def defaultThemeKeywords : List (String × List String) :=
  [("Account Access Issues",
      ["login", "pin", "otp", "password", "credential", "account",
        "activation", "access", "authenticate"]),
    ("Transaction Performance",
      ["transfer", "pending", "delay", "slow", "failed", "processing",
        "transaction", "speed", "loading"]),
    ("User Interface & Experience",
      ["ui", "interface", "design", "navigation", "layout", "experience",
        "user-friendly", "screen"]),
    ("Reliability & Stability",
      ["crash", "error", "bug", "freeze", "lag", "issue", "stability",
        "reliable", "crashes", "errors", "bugs"]),
    ("Customer Support & Communication",
      ["support", "service", "help", "respond", "call", "branch",
        "customer", "care", "contact"]),
    ("Feature Requests",
      ["feature", "add", "need", "would like", "option", "card", "request",
        "suggestion", "improve"])]

/-- String order used to model Python `sorted` on strings (lexicographic
by code point). -/
def strLeP (a b : String) : Prop := lexLe a.data b.data = true

instance : DecidableRel strLeP := fun a b =>
  inferInstanceAs (Decidable (lexLe a.data b.data = true))

/-- The per-review theme detection of `annotate_reviews_with_themes`
(themes.py lines 125-132): clean the text, match every catalog theme
whose keyword list has a member occurring as a contiguous substring, and
return the matched themes sorted, or the sentinel when nothing matched. -/
def detectThemes (catalog : List (String × List String)) (text : String) :
    List String :=
  let cleaned := cleanText text
  let matched :=
    (catalog.filter
      (fun p => p.2.any (fun kw => containsSub kw.data cleaned.data))).map
      Prod.fst
  if matched.isEmpty then ["Other Feedback"]
  else List.insertionSort strLeP matched

theorem lexLe_total : ∀ x y : List Char, lexLe x y = true ∨ lexLe y x = true := by
  intro x
  induction x with
  | nil => intro y; left; rfl
  | cons a as ih =>
    intro y
    cases y with
    | nil => right; rfl
    | cons b bs =>
      by_cases h1 : a.toNat < b.toNat
      · left
        simp [lexLe, h1]
      · by_cases h2 : b.toNat < a.toNat
        · right
          simp [lexLe, h2]
        · rcases ih bs with h | h
          · left
            simp [lexLe, h1, h2, h]
          · right
            simp [lexLe, h1, h2, h]

theorem lexLe_trans :
    ∀ x y z : List Char, lexLe x y = true → lexLe y z = true →
      lexLe x z = true := by
  intro x
  induction x with
  | nil => intro y z _ _; rfl
  | cons a as ih =>
    intro y z hxy hyz
    cases y with
    | nil => simp [lexLe] at hxy
    | cons b bs =>
      cases z with
      | nil => simp [lexLe] at hyz
      | cons c cs =>
        simp only [lexLe] at hxy hyz ⊢
        by_cases hab : a.toNat < b.toNat
        · by_cases hbc : b.toNat < c.toNat
          · have hac : a.toNat < c.toNat := lt_trans hab hbc
            simp [hac]
          · by_cases hcb : c.toNat < b.toNat
            · simp [hbc, hcb] at hyz
            · have hac : a.toNat < c.toNat := by omega
              simp [hac]
        · by_cases hba : b.toNat < a.toNat
          · simp [hab, hba] at hxy
          · by_cases hbc : b.toNat < c.toNat
            · have hac : a.toNat < c.toNat := by omega
              simp [hac]
            · by_cases hcb : c.toNat < b.toNat
              · simp [hbc, hcb] at hyz
              · have hac : ¬ a.toNat < c.toNat := by omega
                have hca : ¬ c.toNat < a.toNat := by omega
                simp only [if_neg hab, if_neg hba] at hxy
                simp only [if_neg hbc, if_neg hcb] at hyz
                simp only [if_neg hac, if_neg hca]
                exact ih bs cs hxy hyz

instance : IsTotal String strLeP := ⟨fun a b => lexLe_total a.data b.data⟩

instance : IsTrans String strLeP :=
  ⟨fun a b c hab hbc => lexLe_trans a.data b.data c.data hab hbc⟩

/-- Claim C3 (confirmed): every annotated review gets a non-empty theme
list; it is exactly the sentinel `["Other Feedback"]` precisely when no
catalog keyword occurs as a contiguous substring of the cleaned text, and
otherwise it is the sorted list of exactly the catalog themes having a
matching keyword. -/
theorem theme_totality (text : String) :
    detectThemes defaultThemeKeywords text ≠ []
    ∧ (detectThemes defaultThemeKeywords text = ["Other Feedback"] ↔
        ∀ p ∈ defaultThemeKeywords, ∀ kw ∈ p.2,
          containsSub kw.data (cleanText text).data = false)
    ∧ List.Sorted strLeP (detectThemes defaultThemeKeywords text)
    ∧ (∀ th, th ∈ detectThemes defaultThemeKeywords text ↔
        ((∃ p ∈ defaultThemeKeywords, p.1 = th ∧ ∃ kw ∈ p.2,
            containsSub kw.data (cleanText text).data = true)
          ∨ ((∀ p ∈ defaultThemeKeywords, ∀ kw ∈ p.2,
              containsSub kw.data (cleanText text).data = false)
            ∧ th = "Other Feedback"))) := by
  have hofn : ∀ p ∈ defaultThemeKeywords, p.1 ≠ "Other Feedback" := by decide
  set cleaned := cleanText text with hcl
  set matched :=
    (defaultThemeKeywords.filter
      (fun p => p.2.any (fun kw => containsSub kw.data cleaned.data))).map
      Prod.fst with hm
  have hdet : detectThemes defaultThemeKeywords text =
      (if matched.isEmpty then ["Other Feedback"]
        else List.insertionSort strLeP matched) := rfl
  have hnomatch : matched = [] ↔
      (∀ p ∈ defaultThemeKeywords, ∀ kw ∈ p.2,
        containsSub kw.data cleaned.data = false) := by
    rw [hm, List.map_eq_nil_iff, List.filter_eq_nil_iff]
    constructor
    · intro h p hp kw hkw
      have hnp := h p hp
      simp only [List.any_eq_true, not_exists, not_and] at hnp
      have := hnp kw hkw
      simp only [Bool.not_eq_true] at this ⊢
      exact this
    · intro h p hp
      simp only [List.any_eq_true, not_exists, not_and]
      intro kw hkw
      have := h p hp kw hkw
      simp [this]
  have hmem : ∀ th, th ∈ matched ↔
      ∃ p ∈ defaultThemeKeywords, p.1 = th ∧ ∃ kw ∈ p.2,
        containsSub kw.data cleaned.data = true := by
    intro th
    rw [hm, List.mem_map]
    constructor
    · rintro ⟨p, hpf, rfl⟩
      rcases List.mem_filter.mp hpf with ⟨hpc, hpa⟩
      rcases List.any_eq_true.mp hpa with ⟨kw, hkw, hc⟩
      exact ⟨p, hpc, rfl, kw, hkw, hc⟩
    · rintro ⟨p, hpc, rfl, kw, hkw, hc⟩
      refine ⟨p, List.mem_filter.mpr ⟨hpc, ?_⟩, rfl⟩
      exact List.any_eq_true.mpr ⟨kw, hkw, hc⟩
  by_cases hempty : matched.isEmpty
  · have hnil : matched = [] := List.isEmpty_iff.mp hempty
    have hno := hnomatch.mp hnil
    rw [hdet, if_pos hempty]
    refine ⟨by simp, ⟨fun _ => hno, fun _ => rfl⟩, by simp, ?_⟩
    intro th
    constructor
    · intro hth
      right
      refine ⟨hno, ?_⟩
      simpa using hth
    · rintro (⟨p, hpc, rfl, kw, hkw, hc⟩ | ⟨_, rfl⟩)
      · have := hno p hpc kw hkw
        rw [this] at hc
        exact absurd hc (by decide)
      · simp
  · have hne : matched ≠ [] := by
      intro hcon
      rw [hcon] at hempty
      exact hempty rfl
    have hperm := List.perm_insertionSort strLeP matched
    rw [hdet, if_neg hempty]
    refine ⟨?_, ?_, List.sorted_insertionSort strLeP matched, ?_⟩
    · intro hcon
      exact hne (List.Perm.eq_nil (hcon ▸ hperm).symm)
    · constructor
      · intro hcon
        have hof : "Other Feedback" ∈ matched := by
          rw [← hperm.mem_iff, hcon]
          simp
        rcases (hmem _).mp hof with ⟨p, hpc, hpeq, _⟩
        exact absurd hpeq (hofn p hpc)
      · intro h
        exact absurd (hnomatch.mpr h) hne
    · intro th
      rw [hperm.mem_iff, hmem th]
      constructor
      · intro h
        exact Or.inl h
      · rintro (h | ⟨hno, rfl⟩)
        · exact h
        · exact absurd (hnomatch.mpr hno) hne

/-! ### Insights analyzer (`src/insights/analyzer.py`) -/

/-- A scored and theme-annotated review row, the shape
`InsightsAnalyzer.reviews_df` has after theme parsing. -/
structure Review where
  bank : String
  review : String
  review_id : String
  rating : ℚ
  sentiment_score : ℚ
  sentiment_label : String
  themes : List String
deriving DecidableEq, Repr

/-- The `DriverPainPoint` dataclass of `analyzer.py`. -/
structure DriverPainPoint where
  bank : String
  category : String
  theme : String
  description : String
  evidence_count : ℕ
  avg_rating : ℚ
  sentiment_score : ℚ
  example_reviews : List String
deriving DecidableEq, Repr

/-- The `BankInsights` dataclass of `analyzer.py`. -/
structure BankInsights where
  bank : String
  drivers : List DriverPainPoint
  pain_points : List DriverPainPoint
  avg_rating : ℚ
  sentiment_score : ℚ
  total_reviews : ℕ
deriving DecidableEq, Repr

/-- The `Recommendation` dataclass of `analyzer.py`. -/
structure Recommendation where
  bank : String
  priority : String
  theme : String
  recommendation : String
  rationale : String
  estimated_impact : String
deriving DecidableEq, Repr

/-- Python `r[:150] + "..." if len(r) > 150 else r` (analyzer.py
line 123). -/
def truncate150 (s : String) : String :=
  if s.length > 150 then s.take 150 ++ "..." else s

/-- Descending sentiment order on reviews, as used by
`nlargest(2, "sentiment_score")` (stable, first occurrences kept). -/
def reviewSentDesc (a b : Review) : Prop :=
  b.sentiment_score ≤ a.sentiment_score

instance : DecidableRel reviewSentDesc := fun a b =>
  inferInstanceAs (Decidable (b.sentiment_score ≤ a.sentiment_score))

/-- Ascending sentiment order on reviews, as used by
`nsmallest(2, "sentiment_score")`. -/
def reviewSentAsc (a b : Review) : Prop :=
  a.sentiment_score ≤ b.sentiment_score

instance : DecidableRel reviewSentAsc := fun a b =>
  inferInstanceAs (Decidable (a.sentiment_score ≤ b.sentiment_score))

/-- Models `pandas.DataFrame.nlargest(n, "sentiment_score")`. -/
def nlargestSent (n : ℕ) (l : List Review) : List Review :=
  (List.insertionSort reviewSentDesc l).take n

/-- Models `pandas.DataFrame.nsmallest(n, "sentiment_score")`. -/
def nsmallestSent (n : ℕ) (l : List Review) : List Review :=
  (List.insertionSort reviewSentAsc l).take n

/-- The `theme_descriptions` mapping of `extract_drivers_pain_points`. -/
def themeDescriptions : List (String × String) :=
  [("Transaction Performance",
      "Transaction speed, processing, and reliability"),
    ("User Interface & Experience",
      "App design, navigation, and user-friendliness"),
    ("Reliability & Stability",
      "App crashes, bugs, and technical stability"),
    ("Account Access Issues",
      "Login problems, authentication, and access difficulties"),
    ("Customer Support & Communication",
      "Support quality and responsiveness"),
    ("Feature Requests",
      "Desired new features and functionality"),
    ("Other Feedback",
      "General feedback and miscellaneous comments")]

/-- The reviews of one bank carrying one theme (analyzer.py lines 76 and
104-106): filter by bank, then keep rows whose theme list contains the
theme. -/
def themeSubset (reviews : List Review) (bank theme : String) : List Review :=
  (reviews.filter (fun r => r.bank == bank)).filter
    (fun r => r.themes.contains theme)

/-- The `DriverPainPoint` record built by the loop body of
`extract_drivers_pain_points` (analyzer.py lines 112-152): averages,
evidence count, description lookup and the 2 extreme truncated example
reviews (highest-sentiment examples when the average sentiment is
positive, lowest otherwise). -/
def dpRecord (reviews : List Review) (bank theme cat : String) :
    DriverPainPoint :=
  let themeReviews := themeSubset reviews bank theme
  let avgSent := qmean (themeReviews.map (fun r => r.sentiment_score))
  let rawExamples :=
    if avgSent > 0 then
      (nlargestSent 2 themeReviews).map (fun r => r.review)
    else (nsmallestSent 2 themeReviews).map (fun r => r.review)
  { bank := bank, category := cat, theme := theme,
    description := (themeDescriptions.lookup theme).getD theme,
    evidence_count := themeReviews.length,
    avg_rating := qmean (themeReviews.map (fun r => r.rating)),
    sentiment_score := avgSent,
    example_reviews := (rawExamples.take 2).map truncate150 }

/-- The per-theme body of the loop in `extract_drivers_pain_points`
(analyzer.py lines 98-152): skip the sentinel theme, skip themes with no
reviews, then classify as driver (`avg_sentiment > 0.1 and
avg_rating >= 3.5`), else pain point (`avg_sentiment < -0.1 and
avg_rating <= 3.0`), else nothing; the two record constructions in the
source differ only in the `category` field, shared here as `dpRecord`. -/
def classifyTheme (reviews : List Review) (bank theme : String) :
    Option DriverPainPoint :=
  if theme = "Other Feedback" then none
  else if (themeSubset reviews bank theme).isEmpty then none
  else if
      qmean ((themeSubset reviews bank theme).map
        (fun r => r.sentiment_score)) > 1/10
      ∧ qmean ((themeSubset reviews bank theme).map
        (fun r => r.rating)) ≥ 7/2 then
    some (dpRecord reviews bank theme "driver")
  else if
      qmean ((themeSubset reviews bank theme).map
        (fun r => r.sentiment_score)) < -(1/10)
      ∧ qmean ((themeSubset reviews bank theme).map
        (fun r => r.rating)) ≤ 3 then
    some (dpRecord reviews bank theme "pain_point")
  else none

/-- Descending sentiment order on driver/pain-point records
(`drivers.sort(key=..., reverse=True)`). -/
def dpDesc (a b : DriverPainPoint) : Prop :=
  b.sentiment_score ≤ a.sentiment_score

instance : DecidableRel dpDesc := fun a b =>
  inferInstanceAs (Decidable (b.sentiment_score ≤ a.sentiment_score))

/-- Ascending sentiment order on driver/pain-point records
(`pain_points.sort(key=...)`). -/
def dpAsc (a b : DriverPainPoint) : Prop :=
  a.sentiment_score ≤ b.sentiment_score

instance : DecidableRel dpAsc := fun a b =>
  inferInstanceAs (Decidable (a.sentiment_score ≤ b.sentiment_score))

/-- Embeds `InsightsAnalyzer.extract_drivers_pain_points` (analyzer.py lines
66-158). `themeRows` is the `(bank, theme)` projection of the theme
summary dataframe the analyzer iterates over. The single source loop
appending each classified record to one of two lists is expressed as the
classification pass `filterMap` followed by one `filter` per category;
the resulting lists are identical because each record carries its
category. -/
def extractDriversPainPoints (reviews : List Review)
    (themeRows : List (String × String)) (bank : String) :
    List DriverPainPoint × List DriverPainPoint :=
  if (reviews.filter (fun r => r.bank == bank)).isEmpty then ([], [])
  else
    let classified :=
      (themeRows.filter (fun p => p.1 == bank)).filterMap
        (fun p => classifyTheme reviews bank p.2)
    (List.insertionSort dpDesc
        (classified.filter (fun d => d.category == "driver")),
      List.insertionSort dpAsc
        (classified.filter (fun d => d.category == "pain_point")))

/-- Embeds `InsightsAnalyzer.analyze_all_banks` (analyzer.py lines 160-181):
iterate the banks in first-occurrence order and collect per-bank
insights. -/
def analyzeAllBanks (reviews : List Review)
    (themeRows : List (String × String)) : List (String × BankInsights) :=
  (uniqueFirst (reviews.map (fun r => r.bank))).map (fun bank =>
    let dp := extractDriversPainPoints reviews themeRows bank
    let bankReviews := reviews.filter (fun r => r.bank == bank)
    (bank,
      { bank := bank, drivers := dp.1, pain_points := dp.2,
        avg_rating := qmean (bankReviews.map (fun r => r.rating)),
        sentiment_score :=
          qmean (bankReviews.map (fun r => r.sentiment_score)),
        total_reviews := bankReviews.length }))

/-- The `pain_point_to_recommendation` table of
`generate_recommendations` (analyzer.py lines 226-257):
theme ↦ (recommendation, rationale, impact). -/
def painPointToRecommendation :
    List (String × String × String × String) :=
  [("Reliability & Stability",
      ("Implement comprehensive crash reporting and automated testing",
        "High volume of stability issues indicates need for better QA and error handling",
        "High - Will directly address user frustration and improve app ratings")),
    ("Transaction Performance",
      ("Optimize transaction processing pipeline and add transaction status tracking",
        "Transaction delays and failures are major pain points affecting user trust",
        "High - Critical for banking app credibility")),
    ("Account Access Issues",
      ("Improve authentication system with biometric login and password recovery",
        "Login problems prevent users from accessing the app, causing immediate frustration",
        "High - Blocks user access to all app features")),
    ("Customer Support & Communication",
      ("Implement in-app chat support and proactive communication system",
        "Users need accessible support channels within the app",
        "Medium - Improves customer satisfaction and retention")),
    ("User Interface & Experience",
      ("Redesign key user flows based on user feedback and conduct UX testing",
        "UI/UX issues affect daily usability and user satisfaction",
        "Medium - Improves overall user experience")),
    ("Feature Requests",
      ("Prioritize most requested features: budgeting tools, transaction history export, bill reminders",
        "Feature requests indicate gaps in current functionality",
        "Medium - Enhances app value proposition"))]

/-- Embeds `InsightsAnalyzer.generate_recommendations` (analyzer.py lines
211-282): for each bank, walk the top-3 pain points, skip themes absent
from the lookup table, and emit one recommendation with the escalated
priority. -/
def generateRecommendations (insights : List (String × BankInsights)) :
    List Recommendation :=
  insights.flatMap (fun bi =>
    (bi.2.pain_points.take 3).filterMap (fun pp =>
      match painPointToRecommendation.lookup pp.theme with
      | none => none
      | some info =>
        some
          { bank := bi.1
            priority :=
              if pp.sentiment_score < -((7:ℚ)/10) ∧ pp.evidence_count > 50
                then "High"
              else if pp.sentiment_score < -((1:ℚ)/2) then "Medium"
              else "Low"
            theme := pp.theme
            recommendation := info.1
            rationale := info.2.1
            estimated_impact := info.2.2 }))

/-! ### Claim C4 (driver / pain-point classification) -/

theorem dpRecord_theme (reviews : List Review) (bank theme cat : String) :
    (dpRecord reviews bank theme cat).theme = theme := rfl

theorem dpRecord_category (reviews : List Review) (bank theme cat : String) :
    (dpRecord reviews bank theme cat).category = cat := rfl

theorem classifyTheme_eq_some {reviews : List Review} {bank theme : String}
    {d : DriverPainPoint} (h : classifyTheme reviews bank theme = some d) :
    d = dpRecord reviews bank theme "driver"
    ∨ d = dpRecord reviews bank theme "pain_point" := by
  unfold classifyTheme at h
  split_ifs at h
  · exact Or.inl (Option.some.inj h).symm
  · exact Or.inr (Option.some.inj h).symm

theorem classifyTheme_driver_iff {reviews : List Review}
    {bank theme : String} (hof : theme ≠ "Other Feedback")
    (hne : ¬ (themeSubset reviews bank theme).isEmpty = true) :
    (∃ d, classifyTheme reviews bank theme = some d
        ∧ d.category = "driver") ↔
      (qmean ((themeSubset reviews bank theme).map
          (fun r => r.sentiment_score)) > 1/10
        ∧ qmean ((themeSubset reviews bank theme).map
          (fun r => r.rating)) ≥ 7/2) := by
  unfold classifyTheme
  rw [if_neg hof, if_neg hne]
  split_ifs with h3 h4
  · exact iff_of_true ⟨dpRecord reviews bank theme "driver", rfl, rfl⟩ h3
  · refine iff_of_false ?_ h3
    rintro ⟨d, hd, hcat⟩
    have hde := (Option.some.inj hd).symm
    rw [hde, dpRecord_category] at hcat
    exact absurd hcat (by decide)
  · refine iff_of_false ?_ h3
    rintro ⟨d, hd, _⟩
    exact absurd hd (by simp)

theorem classifyTheme_pain_iff {reviews : List Review}
    {bank theme : String} (hof : theme ≠ "Other Feedback")
    (hne : ¬ (themeSubset reviews bank theme).isEmpty = true) :
    (∃ d, classifyTheme reviews bank theme = some d
        ∧ d.category = "pain_point") ↔
      (qmean ((themeSubset reviews bank theme).map
          (fun r => r.sentiment_score)) < -(1/10)
        ∧ qmean ((themeSubset reviews bank theme).map
          (fun r => r.rating)) ≤ 3) := by
  unfold classifyTheme
  rw [if_neg hof, if_neg hne]
  split_ifs with h3 h4
  · refine iff_of_false ?_ ?_
    · rintro ⟨d, hd, hcat⟩
      have hde := (Option.some.inj hd).symm
      rw [hde, dpRecord_category] at hcat
      exact absurd hcat (by decide)
    · rintro ⟨hlt, _⟩
      rcases h3 with ⟨hgt, _⟩
      have : (-(1:ℚ)/10) < 1/10 := by norm_num
      linarith
  · exact iff_of_true ⟨dpRecord reviews bank theme "pain_point", rfl, rfl⟩ h4
  · refine iff_of_false ?_ h4
    rintro ⟨d, hd, _⟩
    exact absurd hd (by simp)

theorem mem_extract_drivers {reviews : List Review}
    {themeRows : List (String × String)} {bank : String}
    {d : DriverPainPoint}
    (hbr : ¬ (reviews.filter (fun r => r.bank == bank)).isEmpty = true) :
    d ∈ (extractDriversPainPoints reviews themeRows bank).1 ↔
      ((∃ q ∈ themeRows, q.1 = bank
          ∧ classifyTheme reviews bank q.2 = some d)
        ∧ d.category = "driver") := by
  unfold extractDriversPainPoints
  rw [if_neg hbr]
  have hperm := List.perm_insertionSort dpDesc
    (((themeRows.filter (fun p => p.1 == bank)).filterMap
      (fun p => classifyTheme reviews bank p.2)).filter
      (fun e => e.category == "driver"))
  rw [hperm.mem_iff, List.mem_filter, List.mem_filterMap]
  simp only [List.mem_filter, beq_iff_eq]
  constructor
  · rintro ⟨⟨q, ⟨hq, hqb⟩, hsome⟩, hcat⟩
    exact ⟨⟨q, hq, hqb, hsome⟩, hcat⟩
  · rintro ⟨⟨q, hq, hqb, hsome⟩, hcat⟩
    exact ⟨⟨q, ⟨hq, hqb⟩, hsome⟩, hcat⟩

theorem mem_extract_pains {reviews : List Review}
    {themeRows : List (String × String)} {bank : String}
    {d : DriverPainPoint}
    (hbr : ¬ (reviews.filter (fun r => r.bank == bank)).isEmpty = true) :
    d ∈ (extractDriversPainPoints reviews themeRows bank).2 ↔
      ((∃ q ∈ themeRows, q.1 = bank
          ∧ classifyTheme reviews bank q.2 = some d)
        ∧ d.category = "pain_point") := by
  unfold extractDriversPainPoints
  rw [if_neg hbr]
  have hperm := List.perm_insertionSort dpAsc
    (((themeRows.filter (fun p => p.1 == bank)).filterMap
      (fun p => classifyTheme reviews bank p.2)).filter
      (fun e => e.category == "pain_point"))
  rw [hperm.mem_iff, List.mem_filter, List.mem_filterMap]
  simp only [List.mem_filter, beq_iff_eq]
  constructor
  · rintro ⟨⟨q, ⟨hq, hqb⟩, hsome⟩, hcat⟩
    exact ⟨⟨q, hq, hqb, hsome⟩, hcat⟩
  · rintro ⟨⟨q, hq, hqb, hsome⟩, hcat⟩
    exact ⟨⟨q, ⟨hq, hqb⟩, hsome⟩, hcat⟩

theorem classifyTheme_theme_of_some {reviews : List Review}
    {bank theme : String} {d : DriverPainPoint}
    (h : classifyTheme reviews bank theme = some d) : d.theme = theme := by
  rcases classifyTheme_eq_some h with hde | hde
  · rw [hde, dpRecord_theme]
  · rw [hde, dpRecord_theme]

/-- Claim C4 as amended: for every `(source, theme)` summary row with the
theme different from the sentinel `"Other Feedback"` and at least one
backing review, the theme appears in the driver list exactly when
`avg_sentiment > 0.1 and avg_rating >= 3.5`, appears in the pain-point
list exactly when `avg_sentiment < -0.1 and avg_rating <= 3.0`, and no
theme ever appears in both lists. (The code always skips the sentinel
theme, so the unrestricted claim fails for it.) -/
theorem driver_pain_point_rule (reviews : List Review)
    (themeRows : List (String × String)) (bank theme : String)
    (hrow : (bank, theme) ∈ themeRows) (hof : theme ≠ "Other Feedback")
    (hne : themeSubset reviews bank theme ≠ []) :
    ((∃ d ∈ (extractDriversPainPoints reviews themeRows bank).1,
        d.theme = theme) ↔
      (qmean ((themeSubset reviews bank theme).map
          (fun r => r.sentiment_score)) > 1/10
        ∧ qmean ((themeSubset reviews bank theme).map
          (fun r => r.rating)) ≥ 7/2))
    ∧ ((∃ d ∈ (extractDriversPainPoints reviews themeRows bank).2,
        d.theme = theme) ↔
      (qmean ((themeSubset reviews bank theme).map
          (fun r => r.sentiment_score)) < -(1/10)
        ∧ qmean ((themeSubset reviews bank theme).map
          (fun r => r.rating)) ≤ 3))
    ∧ (∀ th2 : String,
        ¬ ((∃ d ∈ (extractDriversPainPoints reviews themeRows bank).1,
              d.theme = th2)
          ∧ (∃ d ∈ (extractDriversPainPoints reviews themeRows bank).2,
              d.theme = th2))) := by
  have hnei : ¬ (themeSubset reviews bank theme).isEmpty = true := by
    rw [List.isEmpty_iff]
    exact hne
  have hbr : ¬ (reviews.filter (fun r => r.bank == bank)).isEmpty = true := by
    rw [List.isEmpty_iff]
    intro hcon
    rcases List.exists_mem_of_ne_nil _ hne with ⟨x, hx⟩
    have hx2 := List.mem_of_mem_filter hx
    rw [hcon] at hx2
    exact absurd hx2 (List.not_mem_nil x)
  refine ⟨?_, ?_, ?_⟩
  · constructor
    · rintro ⟨d, hd, hdtheme⟩
      rcases (mem_extract_drivers hbr).mp hd with ⟨⟨q, _, _, hsome⟩, hcat⟩
      have hq2 : q.2 = theme := by
        rw [← classifyTheme_theme_of_some hsome, hdtheme]
      rw [hq2] at hsome
      exact (classifyTheme_driver_iff hof hnei).mp ⟨d, hsome, hcat⟩
    · intro hcond
      rcases (classifyTheme_driver_iff hof hnei).mpr hcond with
        ⟨d, hsome, hcat⟩
      refine ⟨d, (mem_extract_drivers hbr).mpr
        ⟨⟨(bank, theme), hrow, rfl, hsome⟩, hcat⟩, ?_⟩
      exact classifyTheme_theme_of_some hsome
  · constructor
    · rintro ⟨d, hd, hdtheme⟩
      rcases (mem_extract_pains hbr).mp hd with ⟨⟨q, _, _, hsome⟩, hcat⟩
      have hq2 : q.2 = theme := by
        rw [← classifyTheme_theme_of_some hsome, hdtheme]
      rw [hq2] at hsome
      exact (classifyTheme_pain_iff hof hnei).mp ⟨d, hsome, hcat⟩
    · intro hcond
      rcases (classifyTheme_pain_iff hof hnei).mpr hcond with
        ⟨d, hsome, hcat⟩
      refine ⟨d, (mem_extract_pains hbr).mpr
        ⟨⟨(bank, theme), hrow, rfl, hsome⟩, hcat⟩, ?_⟩
      exact classifyTheme_theme_of_some hsome
  · rintro th2 ⟨⟨d, hd, hdth⟩, ⟨e, he, heth⟩⟩
    rcases (mem_extract_drivers hbr).mp hd with ⟨⟨q, _, _, hsome⟩, hcat⟩
    rcases (mem_extract_pains hbr).mp he with ⟨⟨q2, _, _, hsome2⟩, hcat2⟩
    have hq : q.2 = th2 := by
      rw [← classifyTheme_theme_of_some hsome, hdth]
    have hq2 : q2.2 = th2 := by
      rw [← classifyTheme_theme_of_some hsome2, heth]
    rw [hq] at hsome
    rw [hq2] at hsome2
    rw [hsome] at hsome2
    have hde : d = e := Option.some.inj hsome2
    rw [hde, hcat2] at hcat
    exact absurd hcat (by decide)

/-- A one-review input whose only theme is the sentinel, with strongly
positive sentiment and top rating. -/
def sentinelOnlyReviews : List Review :=
  [{ bank := "A", review := "great", review_id := "1", rating := 5,
      sentiment_score := 1/2, sentiment_label := "POSITIVE",
      themes := ["Other Feedback"] }]

/-- The corresponding `(bank, theme)` summary rows. -/
def sentinelOnlyRows : List (String × String) := [("A", "Other Feedback")]

/-- Claim C4, counterexample. The claim quantifies over every `(source,
theme)` pair with at least one review, but `extract_drivers_pain_points`
skips the sentinel theme `"Other Feedback"` unconditionally (analyzer.py
lines 100-101): here the pair `("A", "Other Feedback")` has one backing
review satisfying the driver thresholds (average sentiment 0.5 > 0.1,
average rating 5 >= 3.5), yet the driver list is empty, refuting the
stated equivalence. -/
theorem driver_sentinel_counterexample :
    (themeSubset sentinelOnlyReviews "A" "Other Feedback").length = 1
    ∧ qmean ((themeSubset sentinelOnlyReviews "A" "Other Feedback").map
        (fun r => r.sentiment_score)) > 1/10
    ∧ qmean ((themeSubset sentinelOnlyReviews "A" "Other Feedback").map
        (fun r => r.rating)) ≥ 7/2
    ∧ (extractDriversPainPoints sentinelOnlyReviews sentinelOnlyRows "A").1
      = []
    ∧ ¬ ((∃ d ∈ (extractDriversPainPoints sentinelOnlyReviews
            sentinelOnlyRows "A").1, d.theme = "Other Feedback") ↔
        (qmean ((themeSubset sentinelOnlyReviews "A" "Other Feedback").map
            (fun r => r.sentiment_score)) > 1/10
          ∧ qmean ((themeSubset sentinelOnlyReviews "A"
              "Other Feedback").map (fun r => r.rating)) ≥ 7/2)) := by
  refine ⟨by with_unfolding_all decide, by with_unfolding_all decide,
    by with_unfolding_all decide, by with_unfolding_all decide,
    by with_unfolding_all decide⟩

/-- A one-review input for the witness: a crash review with strongly
negative sentiment and rating 1, tagged with a catalog theme. -/
def crashReviews : List Review :=
  [{ bank := "A", review := "app crashes", review_id := "2", rating := 1,
      sentiment_score := -(4/5), sentiment_label := "NEGATIVE",
      themes := ["Reliability & Stability"] }]

/-- The corresponding `(bank, theme)` summary rows. -/
def crashRows : List (String × String) := [("A", "Reliability & Stability")]

/-- Claim C4, witness for the amended statement at a concrete pain-point
input. -/
theorem driver_pain_point_rule_witness :
    (("A", "Reliability & Stability") ∈ crashRows)
    ∧ ("Reliability & Stability" ≠ "Other Feedback")
    ∧ (themeSubset crashReviews "A" "Reliability & Stability" ≠ [])
    ∧ (((∃ d ∈ (extractDriversPainPoints crashReviews crashRows "A").1,
          d.theme = "Reliability & Stability") ↔
        (qmean ((themeSubset crashReviews "A"
            "Reliability & Stability").map
            (fun r => r.sentiment_score)) > 1/10
          ∧ qmean ((themeSubset crashReviews "A"
            "Reliability & Stability").map (fun r => r.rating)) ≥ 7/2))
      ∧ ((∃ d ∈ (extractDriversPainPoints crashReviews crashRows "A").2,
          d.theme = "Reliability & Stability") ↔
        (qmean ((themeSubset crashReviews "A"
            "Reliability & Stability").map
            (fun r => r.sentiment_score)) < -(1/10)
          ∧ qmean ((themeSubset crashReviews "A"
            "Reliability & Stability").map (fun r => r.rating)) ≤ 3))
      ∧ (∀ th2 : String,
          ¬ ((∃ d ∈ (extractDriversPainPoints crashReviews crashRows
                "A").1, d.theme = th2)
            ∧ (∃ d ∈ (extractDriversPainPoints crashReviews crashRows
                "A").2, d.theme = th2)))) := by
  refine ⟨by decide, by decide, by with_unfolding_all decide, ?_⟩
  exact driver_pain_point_rule crashReviews crashRows "A"
    "Reliability & Stability" (by decide) (by decide)
    (by with_unfolding_all decide)

/-! ### Claim C7 (recommendation generation) -/

instance : IsTotal DriverPainPoint dpDesc :=
  ⟨fun a b => le_total b.sentiment_score a.sentiment_score⟩

instance : IsTrans DriverPainPoint dpDesc :=
  ⟨fun _ _ _ h1 h2 => le_trans h2 h1⟩

instance : IsTotal DriverPainPoint dpAsc :=
  ⟨fun a b => le_total a.sentiment_score b.sentiment_score⟩

instance : IsTrans DriverPainPoint dpAsc :=
  ⟨fun _ _ _ h1 h2 => le_trans h1 h2⟩

theorem extract_sorted (reviews : List Review)
    (themeRows : List (String × String)) (bank : String) :
    List.Sorted dpDesc (extractDriversPainPoints reviews themeRows bank).1
    ∧ List.Sorted dpAsc
        (extractDriversPainPoints reviews themeRows bank).2 := by
  unfold extractDriversPainPoints
  split_ifs
  · exact ⟨List.sorted_nil, List.sorted_nil⟩
  · exact ⟨List.sorted_insertionSort dpDesc _,
      List.sorted_insertionSort dpAsc _⟩

/-- Claim C7 (confirmed): every generated recommendation originates from
one of its source bank's top-3 pain points (those lists being sorted by
average sentiment ascending, drivers descending), only for themes present
in the fixed lookup table, and carries priority High when
`sentiment_score < -0.7 and evidence_count > 50`, else Medium when
`sentiment_score < -0.5`, else Low. -/
theorem recommendation_rule (reviews : List Review)
    (themeRows : List (String × String)) :
    (∀ rec ∈ generateRecommendations (analyzeAllBanks reviews themeRows),
      ∃ bi ∈ analyzeAllBanks reviews themeRows,
        ∃ pp ∈ bi.2.pain_points.take 3,
          rec.bank = bi.1 ∧ rec.theme = pp.theme
          ∧ (painPointToRecommendation.lookup pp.theme).isSome = true
          ∧ ((pp.sentiment_score < -((7:ℚ)/10) ∧ pp.evidence_count > 50) →
              rec.priority = "High")
          ∧ ((¬ (pp.sentiment_score < -((7:ℚ)/10)
                ∧ pp.evidence_count > 50)
              ∧ pp.sentiment_score < -((1:ℚ)/2)) →
              rec.priority = "Medium")
          ∧ ((¬ (pp.sentiment_score < -((7:ℚ)/10)
                ∧ pp.evidence_count > 50)
              ∧ ¬ pp.sentiment_score < -((1:ℚ)/2)) →
              rec.priority = "Low"))
    ∧ (∀ bi ∈ analyzeAllBanks reviews themeRows,
        List.Sorted dpDesc bi.2.drivers
        ∧ List.Sorted dpAsc bi.2.pain_points) := by
  constructor
  · intro rec hrec
    unfold generateRecommendations at hrec
    rcases List.mem_flatMap.mp hrec with ⟨bi, hbi, hrec2⟩
    rcases List.mem_filterMap.mp hrec2 with ⟨pp, hpp, hmk⟩
    refine ⟨bi, hbi, pp, hpp, ?_⟩
    cases hlk : painPointToRecommendation.lookup pp.theme with
    | none =>
      rw [hlk] at hmk
      exact absurd hmk (by simp)
    | some info =>
      rw [hlk] at hmk
      have hrec3 := (Option.some.inj hmk).symm
      subst hrec3
      refine ⟨rfl, rfl, rfl, ?_, ?_, ?_⟩
      · intro hcond
        simp only [if_pos hcond]
      · rintro ⟨hnc, hmed⟩
        simp only [if_neg hnc, if_pos hmed]
      · rintro ⟨hnc, hnm⟩
        simp only [if_neg hnc, if_neg hnm]
  · intro bi hbi
    unfold analyzeAllBanks at hbi
    rcases List.mem_map.mp hbi with ⟨bank, _, rfl⟩
    exact extract_sorted reviews themeRows bank

/-- The single recommendation generated from `crashReviews`. -/
def crashRecommendation : Recommendation :=
  { bank := "A", priority := "Medium", theme := "Reliability & Stability",
    recommendation :=
      "Implement comprehensive crash reporting and automated testing",
    rationale :=
      "High volume of stability issues indicates need for better QA and error handling",
    estimated_impact :=
      "High - Will directly address user frustration and improve app ratings" }

/-- Claim C7, witness: on the concrete crash-review input, the generated
recommendation (priority Medium, since the average sentiment -0.8 is
below -0.5 but the evidence count 1 is not above 50) comes from a top-3
pain point with a theme present in the lookup table. -/
theorem recommendation_rule_witness :
    (crashRecommendation ∈
        generateRecommendations (analyzeAllBanks crashReviews crashRows))
    ∧ (∃ bi ∈ analyzeAllBanks crashReviews crashRows,
        ∃ pp ∈ bi.2.pain_points.take 3,
          crashRecommendation.bank = bi.1
          ∧ crashRecommendation.theme = pp.theme
          ∧ (painPointToRecommendation.lookup pp.theme).isSome = true
          ∧ ((pp.sentiment_score < -((7:ℚ)/10) ∧ pp.evidence_count > 50) →
              crashRecommendation.priority = "High")
          ∧ ((¬ (pp.sentiment_score < -((7:ℚ)/10)
                ∧ pp.evidence_count > 50)
              ∧ pp.sentiment_score < -((1:ℚ)/2)) →
              crashRecommendation.priority = "Medium")
          ∧ ((¬ (pp.sentiment_score < -((7:ℚ)/10)
                ∧ pp.evidence_count > 50)
              ∧ ¬ pp.sentiment_score < -((1:ℚ)/2)) →
              crashRecommendation.priority = "Low")) := by
  refine ⟨by with_unfolding_all decide, ?_⟩
  exact (recommendation_rule crashReviews crashRows).1 crashRecommendation
    (by with_unfolding_all decide)

/-! ### Theme summaries (`ThemeExtractor.summarize_themes`) and Claim C6 -/

/-- One row of the summary dataframe built by `summarize_themes`
(`ThemeSummary.to_dict`, themes.py lines 68-75): the keyword list is
already cut to 5 at construction and the example ids to 3; `coverage_pct`
is `round(coverage * 100, 2)`. -/
structure ThemeSummaryRow where
  bank : String
  theme : String
  keywords : List String
  coverage_pct : ℚ
  example_review_ids : List String
deriving DecidableEq, Repr

/-- The output order of `summary_df.sort_values(["bank", "coverage_pct"],
ascending=[True, False])`. -/
def summarySortRel (a b : ThemeSummaryRow) : Prop :=
  lexLt a.bank.data b.bank.data = true
  ∨ (a.bank = b.bank ∧ b.coverage_pct ≤ a.coverage_pct)

instance : DecidableRel summarySortRel := fun a b =>
  inferInstanceAs
    (Decidable (lexLt a.bank.data b.bank.data = true
      ∨ (a.bank = b.bank ∧ b.coverage_pct ≤ a.coverage_pct)))

/-- Embeds `ThemeExtractor.summarize_themes` (themes.py lines 138-170).
`kw` is the per-bank TF-IDF vocabulary (the external term-weighting
capability, `extract_keywords_by_bank`); banks are grouped in sorted
order (`groupby`), themes in first-occurrence order (`dict.setdefault`),
`total = max(len(subset), 1)`, and each row carries the top-5 keywords of
the bank, the rounded coverage percentage and up to 3 example review
ids. -/
def summarizeThemes (kw : String → List String) (df : List Review) :
    List ThemeSummaryRow :=
  List.insertionSort summarySortRel
    ((List.insertionSort strLeP
        (uniqueFirst (df.map (fun r => r.bank)))).flatMap
      (fun bank =>
        (uniqueFirst ((df.filter (fun r => r.bank == bank)).flatMap
            (fun r => r.themes))).map
          (fun theme =>
            { bank := bank, theme := theme,
              keywords := (kw bank).take 5,
              coverage_pct :=
                pyRound2
                  (((((df.filter (fun r => r.bank == bank)).filter
                        (fun r => r.themes.contains theme)).length : ℚ) /
                      ((max (df.filter
                        (fun r => r.bank == bank)).length 1 : ℕ) : ℚ))
                    * 100),
              example_review_ids :=
                (((df.filter (fun r => r.bank == bank)).filter
                    (fun r => r.themes.contains theme)).take 3).map
                  (fun r => r.review_id) })))

theorem mem_uniqueFirstAux {α : Type} [DecidableEq α] :
    ∀ (l : List α) (seen : List α) (a : α),
      a ∈ uniqueFirstAux seen l → a ∈ l := by
  intro l
  induction l with
  | nil => intro seen a h; exact absurd h (List.not_mem_nil a)
  | cons b rest ih =>
    intro seen a h
    unfold uniqueFirstAux at h
    split_ifs at h with hb
    · exact List.mem_cons_of_mem b (ih seen a h)
    · rcases List.mem_cons.mp h with rfl | h2
      · exact List.mem_cons_self a rest
      · exact List.mem_cons_of_mem b (ih (b :: seen) a h2)

theorem mem_uniqueFirst {α : Type} [DecidableEq α] {l : List α} {a : α}
    (h : a ∈ uniqueFirst l) : a ∈ l :=
  mem_uniqueFirstAux l [] a h

theorem roundHalfEven_cases (q : ℚ) :
    roundHalfEven q = ⌊q⌋ ∨ roundHalfEven q = ⌊q⌋ + 1 := by
  simp only [roundHalfEven]
  split_ifs
  · exact Or.inl rfl
  · exact Or.inr rfl
  · exact Or.inl rfl
  · exact Or.inr rfl

theorem roundHalfEven_nonneg {q : ℚ} (h : 0 ≤ q) :
    0 ≤ roundHalfEven q := by
  have hf : (0:ℤ) ≤ ⌊q⌋ := Int.floor_nonneg.mpr h
  rcases roundHalfEven_cases q with he | he
  · rw [he]; exact hf
  · rw [he]; omega

theorem roundHalfEven_le {q : ℚ} (B : ℤ) (h : q ≤ (B : ℚ)) :
    roundHalfEven q ≤ B := by
  have hf : ⌊q⌋ ≤ B := by
    have := Int.floor_le_floor h
    rwa [Int.floor_intCast] at this
  simp only [roundHalfEven]
  split_ifs with h1 h2 h3
  · exact hf
  · by_contra hcon
    have hfB : ⌊q⌋ = B := by omega
    have hq : q - ((⌊q⌋ : ℤ) : ℚ) ≤ 0 := by
      rw [hfB]
      linarith
    linarith
  · exact hf
  · have hq : q = ((⌊q⌋ : ℤ) : ℚ) + 1/2 := by linarith
    have hle : ((⌊q⌋ : ℤ) : ℚ) + 1/2 ≤ (B:ℚ) := by
      rw [← hq]
      exact h
    have hlt : ((⌊q⌋ : ℤ) : ℚ) < (B:ℚ) := by linarith
    have : ⌊q⌋ < B := by exact_mod_cast hlt
    omega

theorem pyRound2_bounds {q : ℚ} (h0 : 0 ≤ q) (h1 : q ≤ 100) :
    0 ≤ pyRound2 q ∧ pyRound2 q ≤ 100 := by
  have hlo : 0 ≤ roundHalfEven (q * 100) :=
    roundHalfEven_nonneg (by linarith)
  have hhi : roundHalfEven (q * 100) ≤ 10000 := by
    refine roundHalfEven_le 10000 ?_
    push_cast
    linarith
  unfold pyRound2
  constructor
  · apply div_nonneg _ (by norm_num)
    exact_mod_cast hlo
  · rw [div_le_iff₀ (by norm_num : (0:ℚ) < 100)]
    have : ((roundHalfEven (q * 100) : ℤ) : ℚ) ≤ ((10000 : ℤ) : ℚ) := by
      exact_mod_cast hhi
    calc ((roundHalfEven (q * 100) : ℤ) : ℚ) ≤ ((10000 : ℤ) : ℚ) := this
    _ = 100 * 100 := by norm_num

theorem mem_summarizeThemes {kw : String → List String} {df : List Review}
    {row : ThemeSummaryRow} (h : row ∈ summarizeThemes kw df) :
    ∃ bank theme, bank ∈ uniqueFirst (df.map (fun r => r.bank))
      ∧ row =
        { bank := bank, theme := theme, keywords := (kw bank).take 5,
          coverage_pct :=
            pyRound2
              (((((df.filter (fun r => r.bank == bank)).filter
                    (fun r => r.themes.contains theme)).length : ℚ) /
                  ((max (df.filter
                    (fun r => r.bank == bank)).length 1 : ℕ) : ℚ)) * 100),
          example_review_ids :=
            (((df.filter (fun r => r.bank == bank)).filter
                (fun r => r.themes.contains theme)).take 3).map
              (fun r => r.review_id) } := by
  unfold summarizeThemes at h
  rw [(List.perm_insertionSort summarySortRel _).mem_iff] at h
  rcases List.mem_flatMap.mp h with ⟨bank, hbank, hrow⟩
  rw [(List.perm_insertionSort strLeP _).mem_iff] at hbank
  rcases List.mem_map.mp hrow with ⟨theme, _, hre⟩
  exact ⟨bank, theme, hbank, hre.symm⟩

/-- Claim C6 as amended: every `(source, theme)` summary row has
`coverage_pct` equal to `100 × count / total` ROUNDED to two decimal
places (the `round(coverage * 100, 2)` of `ThemeSummary.to_dict`), hence
between 0 and 100; it carries the first 5 of the source vocabulary
keywords — identical for every theme row of the same source — and at
most 3 example review ids. -/
theorem theme_summary_rows (kw : String → List String) (df : List Review) :
    ∀ row ∈ summarizeThemes kw df,
      row.coverage_pct =
        pyRound2
          (((((df.filter (fun r => r.bank == row.bank)).filter
                (fun r => r.themes.contains row.theme)).length : ℚ) /
              (((df.filter (fun r => r.bank == row.bank)).length : ℕ) : ℚ))
            * 100)
      ∧ (0 ≤ row.coverage_pct ∧ row.coverage_pct ≤ 100)
      ∧ row.keywords = (kw row.bank).take 5
      ∧ row.example_review_ids.length ≤ 3
      ∧ (∀ row2 ∈ summarizeThemes kw df, row2.bank = row.bank →
          row2.keywords = row.keywords) := by
  intro row hrow
  rcases mem_summarizeThemes hrow with ⟨bank, theme, hbank, hre⟩
  have hsubne : df.filter (fun r => r.bank == bank) ≠ [] := by
    rcases List.mem_map.mp (mem_uniqueFirst hbank) with ⟨r, hr, hrb⟩
    refine List.ne_nil_of_mem (a := r) ?_
    exact List.mem_filter.mpr ⟨hr, by rw [beq_iff_eq]; exact hrb⟩
  have hpos : 0 < (df.filter (fun r => r.bank == bank)).length :=
    List.length_pos.mpr hsubne
  have hn1 : max (df.filter (fun r => r.bank == bank)).length 1 =
      (df.filter (fun r => r.bank == bank)).length :=
    Nat.max_eq_left hpos
  have hk : ((df.filter (fun r => r.bank == bank)).filter
      (fun r => r.themes.contains theme)).length ≤
      (df.filter (fun r => r.bank == bank)).length :=
    List.length_filter_le _ _
  have hq0 : (0:ℚ) ≤
      ((((df.filter (fun r => r.bank == bank)).filter
          (fun r => r.themes.contains theme)).length : ℚ) /
        (((df.filter (fun r => r.bank == bank)).length : ℕ) : ℚ)) * 100 := by
    apply mul_nonneg _ (by norm_num)
    apply div_nonneg
    · exact_mod_cast Nat.zero_le _
    · exact_mod_cast Nat.zero_le _
  have hq100 :
      ((((df.filter (fun r => r.bank == bank)).filter
          (fun r => r.themes.contains theme)).length : ℚ) /
        (((df.filter (fun r => r.bank == bank)).length : ℕ) : ℚ)) * 100
        ≤ 100 := by
    have hdiv : (((df.filter (fun r => r.bank == bank)).filter
        (fun r => r.themes.contains theme)).length : ℚ) /
        (((df.filter (fun r => r.bank == bank)).length : ℕ) : ℚ) ≤ 1 := by
      rw [div_le_one (by exact_mod_cast hpos)]
      exact_mod_cast hk
    linarith
  subst hre
  dsimp only
  rw [hn1]
  refine ⟨rfl, pyRound2_bounds hq0 hq100, rfl, ?_, ?_⟩
  · rw [List.length_map, List.length_take]
    exact min_le_left 3 _
  · intro row2 hrow2 hbank2
    rcases mem_summarizeThemes hrow2 with ⟨bank2, theme2, _, hre2⟩
    subst hre2
    dsimp only at hbank2 ⊢
    rw [hbank2]

/-- A concrete three-review, two-theme input on which the unrounded
coverage 100/3 is not representable with two decimals. -/
def coverageReviews : List Review :=
  [{ bank := "A", review := "x", review_id := "1", rating := 5,
      sentiment_score := 0, sentiment_label := "NEUTRAL",
      themes := ["T"] },
    { bank := "A", review := "y", review_id := "2", rating := 4,
      sentiment_score := 0, sentiment_label := "NEUTRAL",
      themes := ["U"] },
    { bank := "A", review := "z", review_id := "3", rating := 3,
      sentiment_score := 0, sentiment_label := "NEUTRAL",
      themes := ["U"] }]

/-- An empty per-bank vocabulary for the counterexample. -/
def emptyVocab : String → List String := fun _ => []

/-- The summary row of `("A", "T")` on the counterexample input. -/
def coverageRowT : ThemeSummaryRow :=
  { bank := "A", theme := "T", keywords := [],
    coverage_pct := 3333/100, example_review_ids := ["1"] }

theorem coverageRowT_mem :
    coverageRowT ∈ summarizeThemes emptyVocab coverageReviews := by
  unfold summarizeThemes
  rw [(List.perm_insertionSort summarySortRel _).mem_iff]
  apply List.mem_flatMap.mpr
  refine ⟨"A", ?_, ?_⟩
  · rw [(List.perm_insertionSort strLeP _).mem_iff]
    decide
  · apply List.mem_map.mpr
    refine ⟨"T", by decide, ?_⟩
    have hlen1 : ((coverageReviews.filter (fun r => r.bank == "A")).filter
        (fun r => r.themes.contains "T")).length = 1 := by decide
    have hlen3 :
        (coverageReviews.filter (fun r => r.bank == "A")).length = 3 := by
      decide
    unfold coverageRowT
    rw [ThemeSummaryRow.mk.injEq]
    refine ⟨rfl, rfl, by decide, ?_, by decide⟩
    rw [hlen1, hlen3]
    norm_num [pyRound2, roundHalfEven]

/-- Claim C6, counterexample. The claim asserts `coverage_pct` EQUALS
`100 × count / total`; the code rounds to two decimal places
(`round(coverage * 100, 2)`, themes.py line 73). With 1 theme match among
3 reviews the produced summary row carries 33.33, not 100/3. -/
theorem coverage_round_counterexample :
    ((coverageReviews.filter (fun r => r.bank == "A")).filter
        (fun r => r.themes.contains "T")).length = 1
    ∧ (coverageReviews.filter (fun r => r.bank == "A")).length = 3
    ∧ coverageRowT ∈ summarizeThemes emptyVocab coverageReviews
    ∧ coverageRowT.bank = "A" ∧ coverageRowT.theme = "T"
    ∧ coverageRowT.coverage_pct = 3333/100
    ∧ ¬ (coverageRowT.coverage_pct = 100 * 1 / 3) := by
  refine ⟨by decide, by decide, coverageRowT_mem, rfl, rfl, rfl, ?_⟩
  show ¬ ((3333:ℚ)/100 = 100 * 1 / 3)
  norm_num

/-- Claim C6, witness for the amended statement on the concrete
three-review input. -/
theorem theme_summary_rows_witness :
    (coverageRowT ∈ summarizeThemes emptyVocab coverageReviews)
    ∧ (coverageRowT.coverage_pct =
        pyRound2
          (((((coverageReviews.filter
                (fun r => r.bank == coverageRowT.bank)).filter
                (fun r => r.themes.contains coverageRowT.theme)).length : ℚ) /
              (((coverageReviews.filter
                (fun r => r.bank == coverageRowT.bank)).length : ℕ) : ℚ))
            * 100)
      ∧ (0 ≤ coverageRowT.coverage_pct ∧ coverageRowT.coverage_pct ≤ 100)
      ∧ coverageRowT.keywords = (emptyVocab coverageRowT.bank).take 5
      ∧ coverageRowT.example_review_ids.length ≤ 3
      ∧ (∀ row2 ∈ summarizeThemes emptyVocab coverageReviews,
          row2.bank = coverageRowT.bank →
          row2.keywords = coverageRowT.keywords)) := by
  refine ⟨coverageRowT_mem, ?_⟩
  exact theme_summary_rows emptyVocab coverageReviews coverageRowT
    coverageRowT_mem

/-! ### Dataframe rows as association lists (claims C8, C9, C10) -/

/-- A pandas cell value, as the pipeline uses them: strings, numbers, or
lists of strings (the `themes` column). -/
inductive PdValue
  | str (s : String)
  | num (q : ℚ)
  | strList (l : List String)
deriving DecidableEq, Repr

/-- A dataframe row: an association list from column names to cells
(pandas columns are unique, insertion-ordered). -/
abbrev PdRow := List (String × PdValue)

/-- Read a string cell, defaulting to the empty string
(`.fillna("").astype(str)` as used on the text column; the pipeline
guarantees the column exists). -/
def getText (row : PdRow) (c : String) : String :=
  match row.lookup c with
  | some (PdValue.str s) => s
  | _ => ""

/-- Read a numeric cell, defaulting to 0. -/
def getNum (row : PdRow) (c : String) : ℚ :=
  match row.lookup c with
  | some (PdValue.num q) => q
  | _ => 0

/-- Read a string-list cell, defaulting to the empty list. -/
def getThemes (row : PdRow) (c : String) : List String :=
  match row.lookup c with
  | some (PdValue.strList l) => l
  | _ => []

/-- Column assignment `df[c] = v` restricted to one row: pandas
overwrites an existing column in place (keeping its position) and
appends a new column at the end. -/
def setCol (row : PdRow) (c : String) (v : PdValue) : PdRow :=
  if row.any (fun p => p.1 == c) then
    row.map (fun p => if p.1 == c then (c, v) else p)
  else row ++ [(c, v)]

theorem lookup_cons_pair (c k : String) (val : PdValue) (l : PdRow) :
    List.lookup c ((k, val) :: l) =
      if c == k then some val else List.lookup c l := by
  by_cases h : c == k
  · simp [List.lookup, h]
  · simp only [Bool.not_eq_true] at h
    simp [List.lookup, h]

theorem lookup_map_overwrite (c : String) (v : PdValue) :
    ∀ row : PdRow, row.any (fun p => p.1 == c) = true →
      (row.map (fun p => if p.1 == c then (c, v) else p)).lookup c
        = some v := by
  intro row
  induction row with
  | nil => intro h; simp at h
  | cons p rest ih =>
    obtain ⟨k, val⟩ := p
    intro h
    by_cases hk : k = c
    · subst hk
      simp only [List.map_cons]
      rw [if_pos (by simp)]
      rw [lookup_cons_pair, if_pos (by simp)]
    · have hrest : rest.any (fun p => p.1 == c) = true := by
        simp [hk] at h
        simpa using h
      simp only [List.map_cons]
      rw [if_neg (by simp [hk])]
      rw [lookup_cons_pair, if_neg (by simp [Ne.symm hk])]
      exact ih hrest

theorem lookup_map_preserve (c c2 : String) (v : PdValue) (h : c2 ≠ c) :
    ∀ row : PdRow,
      (row.map (fun p => if p.1 == c then (c, v) else p)).lookup c2
        = row.lookup c2 := by
  intro row
  induction row with
  | nil => rfl
  | cons p rest ih =>
    obtain ⟨k, val⟩ := p
    by_cases hk : k = c
    · subst hk
      simp only [List.map_cons]
      rw [if_pos (by simp)]
      rw [lookup_cons_pair, if_neg (by simp [h]), lookup_cons_pair,
        if_neg (by simp [h])]
      exact ih
    · simp only [List.map_cons]
      rw [if_neg (by simp [hk])]
      rw [lookup_cons_pair, lookup_cons_pair]
      by_cases hck : c2 == k
      · rw [if_pos hck, if_pos hck]
      · rw [if_neg hck, if_neg hck]
        exact ih

theorem lookup_append_ne (c c2 : String) (v : PdValue) (h : c2 ≠ c) :
    ∀ row : PdRow, (row ++ [(c, v)]).lookup c2 = row.lookup c2 := by
  intro row
  induction row with
  | nil =>
    show List.lookup c2 [(c, v)] = none
    rw [lookup_cons_pair, if_neg (by simp [h])]
    rfl
  | cons p rest ih =>
    obtain ⟨k, val⟩ := p
    rw [List.cons_append, lookup_cons_pair, lookup_cons_pair]
    by_cases hck : c2 == k
    · rw [if_pos hck, if_pos hck]
    · rw [if_neg hck, if_neg hck]
      exact ih

theorem lookup_append_self (c : String) (v : PdValue) :
    ∀ row : PdRow, row.any (fun p => p.1 == c) = false →
      (row ++ [(c, v)]).lookup c = some v := by
  intro row
  induction row with
  | nil =>
    intro _
    show List.lookup c [(c, v)] = some v
    rw [lookup_cons_pair, if_pos (by simp)]
  | cons p rest ih =>
    obtain ⟨k, val⟩ := p
    intro h
    have hk : (k == c) = false := by
      by_contra hcon
      simp only [Bool.not_eq_false] at hcon
      simp [List.any_cons, hcon] at h
    have hrest : rest.any (fun p => p.1 == c) = false := by
      simp [List.any_cons] at h
      simp
      exact h.2
    rw [List.cons_append, lookup_cons_pair,
      if_neg (by simp; intro hcon; simp [hcon] at hk)]
    exact ih hrest

theorem lookup_setCol_self (row : PdRow) (c : String) (v : PdValue) :
    (setCol row c v).lookup c = some v := by
  unfold setCol
  by_cases hany : row.any (fun p => p.1 == c)
  · rw [if_pos hany]
    exact lookup_map_overwrite c v row hany
  · rw [if_neg hany]
    refine lookup_append_self c v row ?_
    rwa [Bool.not_eq_true] at hany

theorem lookup_setCol_ne (row : PdRow) (c c2 : String) (v : PdValue)
    (h : c2 ≠ c) : (setCol row c v).lookup c2 = row.lookup c2 := by
  unfold setCol
  by_cases hany : row.any (fun p => p.1 == c)
  · rw [if_pos hany]
    exact lookup_map_preserve c c2 v h row
  · rw [if_neg hany]
    exact lookup_append_ne c c2 v h row

/-- Embeds `ThemeExtractor.annotate_reviews_with_themes` on the dataframe level
(themes.py lines 118-136): `df = df.copy()` (the input frame is left
untouched — modelled by this being a pure function of the row list), then
`df["themes"] = df.apply(detect_themes, axis=1)` assigns the per-row
detected theme list. -/
def annotateReviews (catalog : List (String × List String))
    (df : List PdRow) : List PdRow :=
  df.map (fun row =>
    setCol row "themes"
      (PdValue.strList (detectThemes catalog (getText row "review"))))

/-- Claim C10, counterexample. The claim says every pre-existing column
is unchanged; if the input frame ALREADY has a `themes` column, the
assignment overwrites it. Here the single input row carries
`themes = ["X"]`, and the annotated output carries
`themes = ["Other Feedback"]` instead. -/
theorem annotate_overwrites_themes_counterexample :
    (([(("review" : String), PdValue.str "hello"),
        ("themes", PdValue.strList ["X"])] : PdRow).lookup "themes"
      = some (PdValue.strList ["X"]))
    ∧ ((annotateReviews defaultThemeKeywords
          [[("review", PdValue.str "hello"),
            ("themes", PdValue.strList ["X"])]]).map
        (fun r => r.lookup "themes"))
      = [some (PdValue.strList ["Other Feedback"])]
    ∧ PdValue.strList ["X"] ≠ PdValue.strList ["Other Feedback"] := by
  refine ⟨by decide, by decide, by decide⟩

/-- Claim C10 as amended: annotation is a pure function of the input
frame (the source copies the frame before writing), the output has the
same number of rows, and row for row every column OTHER THAN `themes` is
unchanged while `themes` is set — overwriting a pre-existing `themes`
column — to the detected theme list of the row text. -/
theorem annotate_frame_effect (catalog : List (String × List String))
    (df : List PdRow) :
    List.Forall₂
      (fun r r2 =>
        (∀ c, c ≠ "themes" → r2.lookup c = r.lookup c)
        ∧ r2.lookup "themes" =
            some (PdValue.strList
              (detectThemes catalog (getText r "review"))))
      df (annotateReviews catalog df)
    ∧ (annotateReviews catalog df).length = df.length := by
  constructor
  · unfold annotateReviews
    induction df with
    | nil => exact List.Forall₂.nil
    | cons r rest ih =>
      refine List.Forall₂.cons ⟨?_, ?_⟩ ih
      · intro c hc
        exact lookup_setCol_ne r "themes" c _ hc
      · exact lookup_setCol_self r "themes" _
  · simp [annotateReviews]

/-- Claim C10, witness: the amended statement applied to the concrete
one-row frame of the counterexample. -/
theorem annotate_frame_effect_witness :
    List.Forall₂
      (fun r r2 : PdRow =>
        (∀ c, c ≠ "themes" → r2.lookup c = r.lookup c)
        ∧ r2.lookup "themes" =
            some (PdValue.strList
              (detectThemes defaultThemeKeywords (getText r "review"))))
      [[("review", PdValue.str "hello"),
        ("themes", PdValue.strList ["X"])]]
      (annotateReviews defaultThemeKeywords
        [[("review", PdValue.str "hello"),
          ("themes", PdValue.strList ["X"])]])
    ∧ (annotateReviews defaultThemeKeywords
        [[("review", PdValue.str "hello"),
          ("themes", PdValue.strList ["X"])]]).length = 1 :=
  annotate_frame_effect defaultThemeKeywords
    [[("review", PdValue.str "hello"), ("themes", PdValue.strList ["X"])]]

/-! ### Claim C9 (`score_dataframe` coverage) -/

/-- The column-wise merge of the scored results into the input rows:
`pd.concat([df.reset_index(drop=True), scored_df], axis=1)` of
`score_dataframe` (sentiment.py lines 94-104); the id column copy is a
no-op here because the input row already carries its id column. -/
def mergeScoredColumns (df : List PdRow) (results : List SentimentResult) :
    List PdRow :=
  List.zipWith
    (fun row r =>
      setCol
        (setCol
          (setCol
            (setCol row "sentiment_label" (PdValue.str r.sentiment_label))
            "sentiment_score" (PdValue.num r.sentiment_score))
          "positive_score" (PdValue.num r.positive_score))
        "negative_score" (PdValue.num r.negative_score))
    df results

/-- Embeds `SentimentAnalyzer.score_dataframe` (sentiment.py lines 86-104):
extract the text column with `fillna("")`, score it, and merge the four
sentiment columns back row-aligned. -/
def scoreDataframe (f : String → List (String × ℚ)) (b : ℕ) (t : ℚ)
    (df : List PdRow) : List PdRow :=
  mergeScoredColumns df
    (scoreTexts f b t (df.map (fun row => getText row "review")))

/-- Claim C9 (confirmed): `score_dataframe` returns exactly one scored
row per input row, so the orchestrator coverage ratio
`len(scored_df) / len(clean_df)` is 1 for non-empty input and the
below-90% warning branch (pipeline.py lines 66-69) cannot fire. -/
theorem score_dataframe_coverage (f : String → List (String × ℚ))
    (b : ℕ) (t : ℚ) (df : List PdRow) (hb : b ≠ 0) :
    (scoreDataframe f b t df).length = df.length
    ∧ (df ≠ [] →
        ((scoreDataframe f b t df).length : ℚ) / (df.length : ℚ) = 1
        ∧ ¬ (((scoreDataframe f b t df).length : ℚ) / (df.length : ℚ)
            < 9/10)) := by
  have hlen : (scoreDataframe f b t df).length = df.length := by
    unfold scoreDataframe mergeScoredColumns
    rw [List.length_zipWith, scoreTexts_length _ _ _ _ hb,
      List.length_map, min_self]
  refine ⟨hlen, ?_⟩
  intro hne
  have hpos : (0:ℚ) < (df.length : ℚ) := by
    have := List.length_pos.mpr hne
    exact_mod_cast this
  rw [hlen, div_self (ne_of_gt hpos)]
  refine ⟨rfl, ?_⟩
  norm_num

/-- Claim C9, witness at batch size 32 on a one-row frame. -/
theorem score_dataframe_coverage_witness :
    (32 ≠ 0)
    ∧ (scoreDataframe demoClassifier 32 (1/10)
        [[("review", PdValue.str "ok"),
          ("review_id", PdValue.str "1")]]).length = 1
    ∧ (([[("review", PdValue.str "ok"),
          ("review_id", PdValue.str "1")]] : List PdRow) ≠ [] →
        ((scoreDataframe demoClassifier 32 (1/10)
            [[("review", PdValue.str "ok"),
              ("review_id", PdValue.str "1")]]).length : ℚ) / (1 : ℚ) = 1
        ∧ ¬ (((scoreDataframe demoClassifier 32 (1/10)
            [[("review", PdValue.str "ok"),
              ("review_id", PdValue.str "1")]]).length : ℚ) / (1 : ℚ)
            < 9/10)) := by
  have h := score_dataframe_coverage demoClassifier 32 (1/10)
    [[("review", PdValue.str "ok"), ("review_id", PdValue.str "1")]]
    (by decide)
  exact ⟨by decide, h.1, by intro hne; simpa using h.2 hne⟩

/-! ### Pipeline failure mode (`SentimentThemePipeline.run`), Claim C8 -/

/-- The batch loop of `score_texts` with a fallible external classifier:
`outputs.extend(self.classifier(chunk))` for each chunk; a raised
exception aborts at the first failing batch. -/
def collectBatches
    (fc : List String → Except String (List (List (String × ℚ)))) :
    List (List String) → Except String (List (List (String × ℚ)))
  | [] => Except.ok []
  | c :: rest =>
    match fc c with
    | Except.error e => Except.error e
    | Except.ok o =>
      match collectBatches fc rest with
      | Except.error e => Except.error e
      | Except.ok os => Except.ok (o ++ os)

/-- Embeds `score_texts` under the fallible-classifier model: identical to
`scoreTexts` except that a classifier exception propagates. -/
def scoreTextsE
    (fc : List String → Except String (List (List (String × ℚ))))
    (b : ℕ) (t : ℚ) (texts : List String) :
    Except String (List SentimentResult) :=
  match collectBatches fc (chunks b (texts.map cleanSentimentText)) with
  | Except.error e => Except.error e
  | Except.ok outputs =>
    Except.ok
      (List.zipWith (mkSentimentResult t) (texts.map cleanSentimentText)
        outputs)

/-- One row of `_aggregate_sentiment` (pipeline.py lines 36-47). -/
structure SentimentSummaryRow where
  bank : String
  rating : ℚ
  mean_sentiment : ℚ
  positive_share : ℚ
  negative_share : ℚ
  review_count : ℕ
deriving DecidableEq, Repr

/-- The sorted order `groupby(["bank", "rating"])` iterates keys in. -/
def bankRatingRel (a b : String × ℚ) : Prop :=
  lexLt a.1.data b.1.data = true ∨ (a.1 = b.1 ∧ a.2 ≤ b.2)

instance : DecidableRel bankRatingRel := fun a b =>
  inferInstanceAs
    (Decidable (lexLt a.1.data b.1.data = true ∨ (a.1 = b.1 ∧ a.2 ≤ b.2)))

/-- Embeds `SentimentThemePipeline._aggregate_sentiment` (pipeline.py lines
36-47): group by `(bank, rating)` and compute mean sentiment, positive
and negative label shares and the group size. -/
def aggregateSentiment (df : List Review) : List SentimentSummaryRow :=
  (List.insertionSort bankRatingRel
      (uniqueFirst (df.map (fun r => (r.bank, r.rating))))).map
    (fun k =>
      let g := df.filter (fun r => r.bank == k.1 && r.rating == k.2)
      { bank := k.1, rating := k.2,
        mean_sentiment := qmean (g.map (fun r => r.sentiment_score)),
        positive_share :=
          ((g.filter (fun r => r.sentiment_label == "POSITIVE")).length :
            ℚ) / (g.length : ℚ),
        negative_share :=
          ((g.filter (fun r => r.sentiment_label == "NEGATIVE")).length :
            ℚ) / (g.length : ℚ),
        review_count := g.length })

/-- Mirrors the `PipelineOutputs` dataclass of `pipeline.py`. -/
structure PipelineOutputs where
  scored_reviews_path : String
  sentiment_summary_path : String
  theme_summary_path : String
deriving DecidableEq, Repr

/-- View a scored/annotated dataframe row as a `Review` record (the
column set the downstream steps read). -/
def rowToReview (row : PdRow) : Review :=
  { bank := getText row "bank", review := getText row "review",
    review_id := getText row "review_id", rating := getNum row "rating",
    sentiment_score := getNum row "sentiment_score",
    sentiment_label := getText row "sentiment_label",
    themes := getThemes row "themes" }

/-- Embeds `SentimentThemePipeline.run` from the point the cleaned dataframe is
available (pipeline.py lines 65-88): score the text column (a classifier
exception propagates and aborts the run), annotate themes, build the
theme and sentiment summaries, then — only then — write the three output
files. The second component is the write log: the list of paths passed
to `to_csv`, in order; an aborted run writes nothing. -/
def runPipeline
    (fc : List String → Except String (List (List (String × ℚ))))
    (b : ℕ) (t : ℚ) (kw : String → List String)
    (catalog : List (String × List String)) (cleanDf : List PdRow)
    (p1 p2 p3 : String) : Except String PipelineOutputs × List String :=
  match scoreTextsE fc b t
      (cleanDf.map (fun row => getText row "review")) with
  | Except.error e => (Except.error e, [])
  | Except.ok results =>
    let scoredDf := mergeScoredColumns cleanDf results
    let annotatedDf := annotateReviews catalog scoredDf
    let _themeSummary := summarizeThemes kw (annotatedDf.map rowToReview)
    let _sentimentSummary := aggregateSentiment (scoredDf.map rowToReview)
    (Except.ok
        { scored_reviews_path := p1, sentiment_summary_path := p2,
          theme_summary_path := p3 },
      [p1, p2, p3])

theorem collectBatches_error
    (fc : List String → Except String (List (List (String × ℚ))))
    (cs : List (List String))
    (h : ∃ c ∈ cs, ∃ e, fc c = Except.error e) :
    ∃ e, collectBatches fc cs = Except.error e := by
  induction cs with
  | nil =>
    rcases h with ⟨c, hc, _⟩
    exact absurd hc (List.not_mem_nil c)
  | cons c rest ih =>
    cases hfc : fc c with
    | error e => exact ⟨e, by simp [collectBatches, hfc]⟩
    | ok o =>
      have hrest : ∃ c2 ∈ rest, ∃ e, fc c2 = Except.error e := by
        rcases h with ⟨c2, hc2, e, he⟩
        rcases List.mem_cons.mp hc2 with rfl | h2
        · rw [hfc] at he
          exact absurd he (by simp)
        · exact ⟨c2, h2, e, he⟩
      rcases ih hrest with ⟨e, he⟩
      exact ⟨e, by simp [collectBatches, hfc, he]⟩

/-- Claim C8 (confirmed): if the external classifier call fails for some
batch, the error propagates out of the scoring stage and the pipeline run
returns that failure with an EMPTY write log — none of the three output
files is persisted, and no item is silently skipped. -/
theorem classifier_failure_aborts_run
    (fc : List String → Except String (List (List (String × ℚ))))
    (b : ℕ) (t : ℚ) (kw : String → List String)
    (catalog : List (String × List String)) (cleanDf : List PdRow)
    (p1 p2 p3 : String)
    (hfail : ∃ c ∈ chunks b
        ((cleanDf.map (fun row => getText row "review")).map
          cleanSentimentText),
      ∃ e, fc c = Except.error e) :
    ∃ e, runPipeline fc b t kw catalog cleanDf p1 p2 p3
      = (Except.error e, []) := by
  rcases collectBatches_error fc _ hfail with ⟨e, he⟩
  refine ⟨e, ?_⟩
  unfold runPipeline scoreTextsE
  rw [he]

/-- A classifier stub whose every batch call raises. -/
def failingClassifier :
    List String → Except String (List (List (String × ℚ))) :=
  fun _ => Except.error "CUDA out of memory"

/-- Claim C8, witness: with a one-row cleaned frame and an
always-failing classifier, the failing batch exists among the chunks and
the run returns the error with an empty write log. -/
theorem classifier_failure_aborts_run_witness :
    (∃ c ∈ chunks 32
        ((([[("review", PdValue.str "hello")]] : List PdRow).map
            (fun row => getText row "review")).map cleanSentimentText),
      ∃ e, failingClassifier c = Except.error e)
    ∧ (∃ e, runPipeline failingClassifier 32 (1/10) emptyVocab
        defaultThemeKeywords [[("review", PdValue.str "hello")]]
        "out1.csv" "out2.csv" "out3.csv" = (Except.error e, [])) := by
  have hfail : ∃ c ∈ chunks 32
      ((([[("review", PdValue.str "hello")]] : List PdRow).map
          (fun row => getText row "review")).map cleanSentimentText),
      ∃ e, failingClassifier c = Except.error e := by
    refine ⟨["hello"], by decide, "CUDA out of memory", rfl⟩
  exact ⟨hfail, classifier_failure_aborts_run failingClassifier 32 (1/10)
    emptyVocab defaultThemeKeywords [[("review", PdValue.str "hello")]]
    "out1.csv" "out2.csv" "out3.csv" hfail⟩

end FintechReviews
